import Mathlib

/-!
Shallow embedding of the token issuance / verification core of the
`shopify_distributed_ad_revenue` auth-api service
(`src/services/auth-api/src/auth/jkws.rs`,
`src/services/auth-api/src/http/auth/login.rs`,
`src/services/auth-api/src/misc/keypair.rs`).

Modelling conventions:
* Rust `usize` timestamps become `Nat` (seconds since the epoch).
* RSA key material is modelled symbolically: a PEM string is either a
  well-formed private key, a well-formed public key (each carrying the
  mathematical RSA parameters `n`, `e`), or malformed text.  A signature
  produced with a private key records the key's parameters and the exact
  signed content; verification with a public key succeeds exactly when the
  parameters match and the recorded content equals the token's
  header/payload.  This captures the unforgeability contract of RS256 used
  by the code without modelling the number theory.
* The `jsonwebtoken` library calls (`encode`, `decode`,
  `Validation::default()`) are embedded following the library's documented
  semantics (v9): `Validation::default()` has a 60-second `leeway`,
  `validate_exp = true` and `required_spec_claims = {"exp"}`; `decode`
  checks the header algorithm against `validation.algorithms`, verifies the
  signature, deserializes the claims type via serde (a missing required
  field is a `Json` error), and then validates the temporal claims
  (`exp < now - leeway` is `ExpiredSignature`).
* serde payloads are modelled as a record of optional fields covering
  exactly the claim names this program ever reads or writes
  (`sub`, `email`, `exp`, `iat`, `iss`, `token_type`, `scope`, `jti`);
  unknown fields are ignored by serde and by the model.
* Randomness (`Uuid::new_v4`, the RSA key-pair draw) and the wall clock
  (`Utc::now`, `SystemTime`) are passed in as explicit arguments.
* Filesystem writes (`std::fs::write`) are made explicit: the effectful
  constructors return the list of (path, content-tag) writes they perform.
-/

/-- Capability tags, from `enum Scope` in `jkws.rs`. -/
inductive Scope
  | Viewer
  | Manager
  | Admin
deriving DecidableEq, Repr

/-- Token kind tag, from `enum TokenType` in `jkws.rs`. -/
inductive TokenType
  | Access
  | Refresh
deriving DecidableEq, Repr

/-- The claim set of an access token, from `struct AccessTokenClaims`. -/
structure AccessTokenClaims where
  sub : String
  email : String
  exp : Nat
  iat : Nat
  iss : String
  token_type : TokenType
  scope : List Scope
deriving DecidableEq, Repr

/-- The claim set of a refresh token, from `struct RefreshTokenClaims`. -/
structure RefreshTokenClaims where
  sub : String
  email : String
  exp : Nat
  iat : Nat
  iss : String
  token_type : TokenType
  jti : String
deriving DecidableEq, Repr

/-- Scope derivation from a role string, translated from
`determine_user_scopes` in `http/auth/login.rs` (a Rust `match` on `&str`
is a chain of string-equality tests, first match wins). -/
def determine_user_scopes (role : String) : List Scope :=
  if role = "admin" then [Scope.Viewer, Scope.Manager, Scope.Admin]
  else if role = "manager" then [Scope.Viewer, Scope.Manager]
  else if role = "viewer" then [Scope.Viewer]
  else [Scope.Viewer]

/-- Parameters of an RSA key: modulus `n` and public exponent `e`
(`rsa::RsaPublicKey` exposes exactly these through `PublicKeyParts`). -/
structure RsaKeyParams where
  n : Nat
  e : Nat
deriving DecidableEq, Repr

/-- A PEM string as stored in `AuthService` (`private_key`/`public_key`
fields are `String`s that are re-parsed on every use).  A well-formed
private-key PEM determines the key pair's parameters; a well-formed
public-key PEM likewise; anything else is malformed text. -/
inductive Pem
  | rsaPrivate (k : RsaKeyParams)
  | rsaPublic (k : RsaKeyParams)
  | malformed (s : String)
deriving DecidableEq, Repr

/-- JOSE header algorithms that can appear in a token header.  The
`jsonwebtoken::Algorithm` enum has RS256, HS256, ... ; the model also keeps
a tag for "none" and for any other declared algorithm so that
algorithm-confusion inputs are expressible. -/
inductive Alg
  | RS256
  | HS256
  | noneAlg
  | other (s : String)
deriving DecidableEq, Repr

/-- The JOSE header, from `jsonwebtoken::Header` (only the fields this
program sets or checks: `alg` and `kid`). -/
structure JoseHeader where
  alg : Alg
  kid : Option String
deriving DecidableEq, Repr

/-- The JSON claim payload of a token, as a record of the claim names this
program ever serializes or deserializes.  `serde` ignores unknown fields
and errors on a missing required field, so an `Option` per field is a
faithful view of the JSON object. -/
structure Payload where
  sub : Option String
  email : Option String
  exp : Option Nat
  iat : Option Nat
  iss : Option String
  token_type : Option TokenType
  scope : Option (List Scope)
  jti : Option String
deriving DecidableEq, Repr

/-- A symbolic RS256 signature: it records the private key parameters it
was made with and the exact header/payload bytes that were signed. -/
structure Sig where
  key : RsaKeyParams
  signedHeader : JoseHeader
  signedPayload : Payload
deriving DecidableEq, Repr

/-- A compact JOSE token `header.payload.signature`. -/
structure Token where
  header : JoseHeader
  payload : Payload
  sig : Sig
deriving DecidableEq, Repr

/-- The error taxonomy of `jsonwebtoken::errors::ErrorKind`, restricted to
the variants reachable from this program's calls. -/
inductive ErrorKind
  | InvalidToken
  | InvalidSignature
  | InvalidAlgorithm
  | ExpiredSignature
  | MissingRequiredClaim (claim : String)
  | Json (msg : String)
  | InvalidKeyFormat
deriving DecidableEq, Repr

/-- An `EncodingKey` built by `EncodingKey::from_rsa_pem`: the parsed RSA
private key. -/
structure EncodingKey where
  key : RsaKeyParams
deriving DecidableEq, Repr

/-- A `DecodingKey` built by `DecodingKey::from_rsa_pem`: the parsed RSA
public key. -/
structure DecodingKey where
  key : RsaKeyParams
deriving DecidableEq, Repr

/-- `EncodingKey::from_rsa_pem`: parses a private-key PEM, failing on
anything else (the program maps the failure through `e.into_kind()`). -/
def EncodingKey.from_rsa_pem : Pem → Except ErrorKind EncodingKey
  | Pem.rsaPrivate k => Except.ok ⟨k⟩
  | _ => Except.error ErrorKind.InvalidKeyFormat

/-- `DecodingKey::from_rsa_pem`: parses a public-key PEM. -/
def DecodingKey.from_rsa_pem : Pem → Except ErrorKind DecodingKey
  | Pem.rsaPublic k => Except.ok ⟨k⟩
  | _ => Except.error ErrorKind.InvalidKeyFormat

/-- The subset of `jsonwebtoken::Validation` this program exercises. -/
structure Validation where
  algorithms : List Alg
  leeway : Nat
  validate_exp : Bool
deriving Repr

/-- `jsonwebtoken::Validation::default()`: algorithms `[HS256]`, 60-second
leeway, `exp` required and validated. -/
def Validation.default : Validation :=
  { algorithms := [Alg.HS256], leeway := 60, validate_exp := true }

/-- `jsonwebtoken::encode`: serializes header and claims and signs them
with the encoding key (symbolically: the signature records the key and the
signed content). -/
def joseEncode (header : JoseHeader) (payload : Payload) (key : EncodingKey) : Token :=
  { header := header, payload := payload
    sig := { key := key.key, signedHeader := header, signedPayload := payload } }

/-- The algorithm and signature phase of `jsonwebtoken::decode`
(`verify_signature`): reject a header algorithm outside
`validation.algorithms`, then check the signature against the decoding key
and the token's own header/payload bytes. -/
def verify_signature (token : Token) (key : DecodingKey) (v : Validation) :
    Except ErrorKind (JoseHeader × Payload) :=
  if token.header.alg ∉ v.algorithms then
    Except.error ErrorKind.InvalidAlgorithm
  else if token.sig.key = key.key ∧ token.sig.signedHeader = token.header ∧
      token.sig.signedPayload = token.payload then
    Except.ok (token.header, token.payload)
  else
    Except.error ErrorKind.InvalidSignature

/-- serde deserialization of `AccessTokenClaims` from the payload JSON:
all seven declared fields are required (no `serde(default)`), extra fields
such as `jti` are ignored; a missing field is a `Json` error. -/
def deserializeAccessClaims (p : Payload) : Except ErrorKind AccessTokenClaims :=
  match p.sub, p.email, p.exp, p.iat, p.iss, p.token_type, p.scope with
  | some sub, some email, some exp, some iat, some iss, some tt, some sc =>
      Except.ok { sub := sub, email := email, exp := exp, iat := iat, iss := iss,
                  token_type := tt, scope := sc }
  | _, _, _, _, _, _, _ => Except.error (ErrorKind.Json ("missing field"))

/-- serde deserialization of `RefreshTokenClaims`: requires `jti` instead
of `scope`. -/
def deserializeRefreshClaims (p : Payload) : Except ErrorKind RefreshTokenClaims :=
  match p.sub, p.email, p.exp, p.iat, p.iss, p.token_type, p.jti with
  | some sub, some email, some exp, some iat, some iss, some tt, some jti =>
      Except.ok { sub := sub, email := email, exp := exp, iat := iat, iss := iss,
                  token_type := tt, jti := jti }
  | _, _, _, _, _, _, _ => Except.error (ErrorKind.Json ("missing field"))

/-- The temporal-claim validation phase of `jsonwebtoken::decode`
(`validate`): `exp` is a required spec claim, and with `validate_exp` set,
`exp < now - leeway` is `ExpiredSignature` (`now - leeway` in the library
is unsigned arithmetic, matching `Nat` truncated subtraction). -/
def validateTemporalClaims (p : Payload) (v : Validation) (now : Nat) :
    Except ErrorKind Unit :=
  match p.exp with
  | none => Except.error (ErrorKind.MissingRequiredClaim ("exp"))
  | some exp =>
      if v.validate_exp ∧ exp < now - v.leeway then
        Except.error ErrorKind.ExpiredSignature
      else Except.ok ()

/-- `jsonwebtoken::decode::<AccessTokenClaims>`: algorithm and signature
check, then claims deserialization, then temporal validation (the v9
order: the claims type is deserialized before `validate` runs). -/
def decodeAccess (token : Token) (key : DecodingKey) (v : Validation) (now : Nat) :
    Except ErrorKind AccessTokenClaims :=
  match verify_signature token key v with
  | Except.error e => Except.error e
  | Except.ok (_, payload) =>
      match deserializeAccessClaims payload with
      | Except.error e => Except.error e
      | Except.ok claims =>
          match validateTemporalClaims payload v now with
          | Except.error e => Except.error e
          | Except.ok _ => Except.ok claims

/-- `jsonwebtoken::decode::<RefreshTokenClaims>`. -/
def decodeRefresh (token : Token) (key : DecodingKey) (v : Validation) (now : Nat) :
    Except ErrorKind RefreshTokenClaims :=
  match verify_signature token key v with
  | Except.error e => Except.error e
  | Except.ok (_, payload) =>
      match deserializeRefreshClaims payload with
      | Except.error e => Except.error e
      | Except.ok claims =>
          match validateTemporalClaims payload v now with
          | Except.error e => Except.error e
          | Except.ok _ => Except.ok claims

deriving instance DecidableEq for Except

/-- A version-4 UUID value; the model keeps only its canonical string form
(`Uuid::to_string`), which is all this program uses. -/
structure Uuid where
  str : String
deriving DecidableEq, Repr

/-- `Uuid::to_string`. -/
def Uuid.toStr (u : Uuid) : String := u.str

/-- The `AuthService` struct: the two PEM strings it stores. -/
structure AuthService where
  private_key : Pem
  public_key : Pem
deriving DecidableEq, Repr

/-- `AuthService::new`: the `_jwt_expiration_hours` argument is accepted
and discarded (its binder is underscore-prefixed in the source). -/
def AuthService.new (private_key : Pem) (_jwt_expiration_hours : Nat)
    (public_key : Pem) : AuthService :=
  { private_key := private_key, public_key := public_key }

/-- `AuthService::gen_access_token`: claims with `iat = now`,
`exp = now + 15 minutes`, issuer `"exchange_api"`, kind `Access`, the given
scopes; header `RS256` with the fixed kid; signed under the service's
private key.  `now` is the wall-clock second passed in explicitly. -/
def AuthService.gen_access_token (s : AuthService) (user_id : Uuid)
    (email : String) (scopes : List Scope) (now : Nat) :
    Except ErrorKind Token :=
  let expiration := now + 15 * 60
  let claims : AccessTokenClaims :=
    { sub := user_id.toStr, email := email, exp := expiration, iat := now,
      iss := "exchange_api", token_type := TokenType.Access, scope := scopes }
  let header : JoseHeader := { alg := Alg.RS256, kid := some ("exchange_api_key_1") }
  let payload : Payload :=
    { sub := some claims.sub, email := some claims.email, exp := some claims.exp,
      iat := some claims.iat, iss := some claims.iss,
      token_type := some claims.token_type, scope := some claims.scope, jti := none }
  match EncodingKey.from_rsa_pem s.private_key with
  | Except.error e => Except.error e
  | Except.ok key => Except.ok (joseEncode header payload key)

/-- `AuthService::gen_refresh_token`: `exp = now + 30 days`, kind
`Refresh`, a `jti` drawn from `Uuid::new_v4` (the random draw is the
explicit `jti` argument); the payload carries no `scope` field. -/
def AuthService.gen_refresh_token (s : AuthService) (user_id : Uuid)
    (email : String) (now : Nat) (jti : Uuid) : Except ErrorKind Token :=
  let expiration := now + 30 * 24 * 60 * 60
  let claims : RefreshTokenClaims :=
    { sub := user_id.toStr, email := email, exp := expiration, iat := now,
      iss := "exchange_api", token_type := TokenType.Refresh, jti := jti.toStr }
  let header : JoseHeader := { alg := Alg.RS256, kid := some ("exchange_api_key_1") }
  let payload : Payload :=
    { sub := some claims.sub, email := some claims.email, exp := some claims.exp,
      iat := some claims.iat, iss := some claims.iss,
      token_type := some claims.token_type, scope := none, jti := some claims.jti }
  match EncodingKey.from_rsa_pem s.private_key with
  | Except.error e => Except.error e
  | Except.ok key => Except.ok (joseEncode header payload key)

/-- `AuthService::gen_token_pair`: the access token then the refresh
token, failing on the first error. -/
def AuthService.gen_token_pair (s : AuthService) (user_id : Uuid)
    (email : String) (scopes : List Scope) (now : Nat) (jti : Uuid) :
    Except ErrorKind (Token × Token) :=
  match s.gen_access_token user_id email scopes now with
  | Except.error e => Except.error e
  | Except.ok access =>
      match s.gen_refresh_token user_id email now jti with
      | Except.error e => Except.error e
      | Except.ok refresh => Except.ok (access, refresh)

/-- `AuthService::verify_access_token`: `Validation::default()` with
`algorithms` overwritten to `[RS256]`, decode as `AccessTokenClaims` under
the service's public key, then require `token_type == Access` on pain of
`InvalidToken`. -/
def AuthService.verify_access_token (s : AuthService) (token : Token)
    (now : Nat) : Except ErrorKind AccessTokenClaims :=
  let v : Validation := { Validation.default with algorithms := [Alg.RS256] }
  match DecodingKey.from_rsa_pem s.public_key with
  | Except.error e => Except.error e
  | Except.ok key =>
      match decodeAccess token key v now with
      | Except.error e => Except.error e
      | Except.ok claims =>
          if claims.token_type ≠ TokenType.Access then
            Except.error ErrorKind.InvalidToken
          else
            Except.ok claims

/-- `AuthService::verify_refresh_token`: symmetric, requiring
`token_type == Refresh`. -/
def AuthService.verify_refresh_token (s : AuthService) (token : Token)
    (now : Nat) : Except ErrorKind RefreshTokenClaims :=
  let v : Validation := { Validation.default with algorithms := [Alg.RS256] }
  match DecodingKey.from_rsa_pem s.public_key with
  | Except.error e => Except.error e
  | Except.ok key =>
      match decodeRefresh token key v now with
      | Except.error e => Except.error e
      | Except.ok claims =>
          if claims.token_type ≠ TokenType.Refresh then
            Except.error ErrorKind.InvalidToken
          else
            Except.ok claims

/-- Little-endian base-256 digit extraction with explicit fuel (the fuel
is only there to make the recursion structural; `fuel ≥ x` makes it
exact, see `toBytesLEAux_eq_digits`). -/
def toBytesLEAux : Nat → Nat → List Nat
  | _, 0 => []
  | 0, _ + 1 => []
  | fuel + 1, x + 1 => (x + 1) % 256 :: toBytesLEAux fuel ((x + 1) / 256)

/-- `num_bigint::BigUint::to_bytes_be` (via `rsa`'s `PublicKeyParts`):
the minimal big-endian byte string of a non-negative integer, with `[0]`
for zero. -/
def to_bytes_be (x : Nat) : List Nat :=
  if x = 0 then [0] else (toBytesLEAux x x).reverse

/-- The URL-safe base64 alphabet (RFC 4648 §5), as used by
`base64::engine::general_purpose::URL_SAFE_NO_PAD`. -/
def b64Alphabet : List Char :=
  String.toList ("ABCDEFGHIJKLMNOPQRSTUVWXYZabcdefghijklmnopqrstuvwxyz0123456789-_")

/-- The alphabet character for a 6-bit value. -/
def b64Char (i : Nat) : Char := b64Alphabet.getD i ('A')

/-- Unpadded base64url encoding of a byte string, three input bytes per
four output characters, with the RFC 4648 tail handling and no `=`
padding. -/
def b64urlNoPadEncode : List Nat → List Char
  | [] => []
  | [b1] => [b64Char (b1 / 4), b64Char (b1 % 4 * 16)]
  | [b1, b2] =>
      [b64Char (b1 / 4), b64Char (b1 % 4 * 16 + b2 / 16), b64Char (b2 % 16 * 4)]
  | b1 :: b2 :: b3 :: rest =>
      b64Char (b1 / 4) :: b64Char (b1 % 4 * 16 + b2 / 16) ::
      b64Char (b2 % 16 * 4 + b3 / 64) :: b64Char (b3 % 64) :: b64urlNoPadEncode rest

/-- `URL_SAFE_NO_PAD.encode` producing a `String`. -/
def urlSafeNoPad (bytes : List Nat) : String := String.mk (b64urlNoPadEncode bytes)

/-- One JWK record, from `struct Jwk` in `jkws.rs` (the Rust field
`r#use` is `jwkUse` here). -/
structure Jwk where
  alg : String
  e : String
  kid : String
  kty : String
  n : String
  jwkUse : String
deriving DecidableEq, Repr

/-- The JWKS document, from `struct Jwks`. -/
structure Jwks where
  keys : List Jwk
deriving DecidableEq, Repr

/-- `AuthService::generate_jwks`: parse the stored public-key PEM, then
emit one JWK with the fixed kid and the base64url-unpadded big-endian
encodings of `n` and `e`.  Pure: it performs no writes (contrast
`create_public_keys_json`).  Errors (as `anyhow`) when the stored public
key PEM does not parse. -/
def AuthService.generate_jwks (s : AuthService) : Except String Jwks :=
  match s.public_key with
  | Pem.rsaPublic k =>
      Except.ok
        { keys := [{ alg := ("RS256"), e := urlSafeNoPad (to_bytes_be k.e),
                     kid := ("exchange_api_key_1"), kty := ("RSA"),
                     n := urlSafeNoPad (to_bytes_be k.n), jwkUse := ("sig") }] }
  | _ => Except.error ("invalid public key")

/-- What a `std::fs::write` call in this program writes: either the
`keys.json` bootstrap record (private and public PEM plus metadata) or the
`public_keys.json` JWKS rendering. -/
inductive FileContent
  | keysJson (private_key : Pem) (public_key : Pem) (generated_at : Nat)
  | publicKeysJson (jwks : Jwks)
deriving DecidableEq, Repr

/-- One durable-storage write: target path and content. -/
structure FsWrite where
  path : String
  content : FileContent
deriving DecidableEq, Repr

/-- `AuthService::create_public_keys_json`: parse the public-key PEM,
build the JWKS json, and write it to `public_keys.json`.  The returned
list is the durable-storage writes the call performs. -/
def create_public_keys_json (public_key_pem : Pem) :
    Except String (List FsWrite) :=
  match public_key_pem with
  | Pem.rsaPublic k =>
      Except.ok
        [{ path := ("public_keys.json"),
           content := FileContent.publicKeysJson
             { keys := [{ alg := ("RS256"), e := urlSafeNoPad (to_bytes_be k.e),
                          kid := ("exchange_api_key_1"), kty := ("RSA"),
                          n := urlSafeNoPad (to_bytes_be k.n), jwkUse := ("sig") }] } }]
  | _ => Except.error ("invalid public key")

/-- The result of `misc::keypair::generate_key_pair`, from
`struct KeyPair`. -/
structure KeyPair where
  private_key : Pem
  public_key : Pem
deriving DecidableEq, Repr

/-- `misc::keypair::generate_key_pair`: draws a fresh 2048-bit RSA key
(the draw is the explicit `k` argument; `now` is `Utc::now` for the
`generated_at` metadata), renders both PEMs, writes `keys.json` (private
key material and metadata) and `public_keys.json` (JWKS rendering), and
returns the pair. -/
def generate_key_pair (k : RsaKeyParams) (now : Nat) :
    Except String (KeyPair × List FsWrite) :=
  Except.ok
    ({ private_key := Pem.rsaPrivate k, public_key := Pem.rsaPublic k },
     [{ path := ("keys.json"),
        content := FileContent.keysJson (Pem.rsaPrivate k) (Pem.rsaPublic k) now },
      { path := ("public_keys.json"),
        content := FileContent.publicKeysJson
          { keys := [{ alg := ("RS256"), e := urlSafeNoPad (to_bytes_be k.e),
                       kid := ("exchange_api_key_1"), kty := ("RSA"),
                       n := urlSafeNoPad (to_bytes_be k.n), jwkUse := ("sig") }] } }])

/-- `AuthService::extract_public_key_from_private`: derive the public key
from a private-key PEM (same RSA parameters), failing on malformed
input. -/
def extract_public_key_from_private (private_key_pem : Pem) :
    Except String Pem :=
  match private_key_pem with
  | Pem.rsaPrivate k => Except.ok (Pem.rsaPublic k)
  | _ => Except.error ("invalid private key")

/-- The configuration fields of `struct Args` that `from_config` reads.
The `replace("\x5cn", newline)` unescaping the source applies to the raw
environment strings is absorbed into the abstraction of a PEM string as a
`Pem` value. -/
structure Args where
  private_key : Option Pem
  public_key : Option Pem
  jwt_expiration_hours : Nat
deriving Repr

/-- `AuthService::from_config`: with an externally supplied private key,
take the supplied public key or derive it, call
`create_public_keys_json`, and build the service; with no private key,
call `generate_key_pair` (the fresh random draw is `draw`, the clock is
`now`) and build the service from the generated pair.  The second
component collects every durable-storage write the call performed. -/
def AuthService.from_config (config : Args) (draw : RsaKeyParams) (now : Nat) :
    Except String (AuthService × List FsWrite) :=
  match config.private_key with
  | some private_key =>
      match (match config.public_key with
             | some public_key => Except.ok public_key
             | none => extract_public_key_from_private private_key) with
      | Except.error e => Except.error e
      | Except.ok public_key =>
          match create_public_keys_json public_key with
          | Except.error e => Except.error e
          | Except.ok writes =>
              Except.ok
                (AuthService.new private_key config.jwt_expiration_hours public_key,
                 writes)
  | none =>
      match generate_key_pair draw now with
      | Except.error e => Except.error e
      | Except.ok (keys, writes) =>
          Except.ok
            (AuthService.new keys.private_key config.jwt_expiration_hours keys.public_key,
             writes)

/-- A small concrete RSA parameter set used for concrete evaluations
(the textbook 3233 = 61 * 53 modulus with exponent 17). -/
def kA : RsaKeyParams := { n := 3233, e := 17 }

/-- A concrete service holding the `kA` key pair. -/
def svcA : AuthService :=
  { private_key := Pem.rsaPrivate kA, public_key := Pem.rsaPublic kA }

/-- The concrete subject id from the spec's §8 scenario. -/
def uA : Uuid := { str := ("11111111-1111-1111-1111-111111111111") }

/-- The header every token minted by this program carries. -/
def headerStd : JoseHeader :=
  { alg := Alg.RS256, kid := some ("exchange_api_key_1") }

/-- The payload of the access token minted by `svcA` for `uA` at second
1000 with the Viewer scope. -/
def apayloadA : Payload :=
  { sub := some uA.toStr, email := some ("a@b.com"), exp := some 1900,
    iat := some 1000, iss := some ("exchange_api"),
    token_type := some TokenType.Access, scope := some [Scope.Viewer], jti := none }

/-- That concrete access token. -/
def atokA : Token :=
  { header := headerStd, payload := apayloadA,
    sig := { key := kA, signedHeader := headerStd, signedPayload := apayloadA } }

/-- The payload of the refresh token minted by `svcA` for `uA` at second
1000 with jti draw `j1`. -/
def rpayloadA : Payload :=
  { sub := some uA.toStr, email := some ("a@b.com"), exp := some 2593000,
    iat := some 1000, iss := some ("exchange_api"),
    token_type := some TokenType.Refresh, scope := none, jti := some ("j1") }

/-- That concrete refresh token. -/
def rtokA : Token :=
  { header := headerStd, payload := rpayloadA,
    sig := { key := kA, signedHeader := headerStd, signedPayload := rpayloadA } }

/-- A token like `atokA` but whose header (and signed header) declare
HS256 instead of RS256. -/
def htokA : Token :=
  { header := { alg := Alg.HS256, kid := none }, payload := apayloadA,
    sig := { key := kA, signedHeader := { alg := Alg.HS256, kid := none },
             signedPayload := apayloadA } }

/-- The JWKS rendering of `kA` (3233 = bytes [12, 161] encodes to DKE,
17 = bytes [17] encodes to EQ). -/
def jwksA : Jwks :=
  { keys := [{ alg := ("RS256"), e := ("EQ"), kid := ("exchange_api_key_1"),
               kty := ("RSA"), n := ("DKE"), jwkUse := ("sig") }] }

/-- The two bootstrap writes `generate_key_pair` performs for the `kA`
draw at second 0. -/
def bootWritesA : List FsWrite :=
  [{ path := ("keys.json"),
     content := FileContent.keysJson (Pem.rsaPrivate kA) (Pem.rsaPublic kA) 0 },
   { path := ("public_keys.json"), content := FileContent.publicKeysJson jwksA }]

/-- Decode one base64url character back to its 6-bit value. -/
def b64DecodeChar (c : Char) : Nat := b64Alphabet.indexOf c

/-- Unpadded base64url decoding, the inverse of `b64urlNoPadEncode` on
well-formed input. -/
def b64urlNoPadDecode : List Char → List Nat
  | c1 :: c2 :: c3 :: c4 :: rest =>
      (b64DecodeChar c1 * 4 + b64DecodeChar c2 / 16) ::
      (b64DecodeChar c2 % 16 * 16 + b64DecodeChar c3 / 4) ::
      (b64DecodeChar c3 % 4 * 64 + b64DecodeChar c4) ::
      b64urlNoPadDecode rest
  | [c1, c2] => [b64DecodeChar c1 * 4 + b64DecodeChar c2 / 16]
  | [c1, c2, c3] =>
      [b64DecodeChar c1 * 4 + b64DecodeChar c2 / 16,
       b64DecodeChar c2 % 16 * 16 + b64DecodeChar c3 / 4]
  | _ => []

lemma toBytesLEAux_eq_digits (fuel : Nat) :
    ∀ x : Nat, x ≤ fuel → toBytesLEAux fuel x = Nat.digits 256 x := by
  induction fuel with
  | zero =>
      intro x hx
      have : x = 0 := Nat.le_zero.mp hx
      subst this
      simp [toBytesLEAux]
  | succ n ih =>
      intro x hx
      cases x with
      | zero => simp [toBytesLEAux]
      | succ m =>
          rw [show toBytesLEAux (n + 1) (m + 1) =
              (m + 1) % 256 :: toBytesLEAux n ((m + 1) / 256) from rfl]
          rw [ih ((m + 1) / 256) (by omega)]
          rw [Nat.digits_def' (by norm_num : 1 < 256) (Nat.succ_pos m)]

lemma mem_toBytesLEAux_lt (fuel : Nat) :
    ∀ x b : Nat, b ∈ toBytesLEAux fuel x → b < 256 := by
  induction fuel with
  | zero =>
      intro x b hb
      cases x <;> simp [toBytesLEAux] at hb
  | succ n ih =>
      intro x b hb
      cases x with
      | zero => simp [toBytesLEAux] at hb
      | succ m =>
          rw [show toBytesLEAux (n + 1) (m + 1) =
              (m + 1) % 256 :: toBytesLEAux n ((m + 1) / 256) from rfl] at hb
          rcases List.mem_cons.mp hb with h | h
          · subst h; exact Nat.mod_lt _ (by norm_num)
          · exact ih _ _ h

lemma mem_to_bytes_be_lt (x b : Nat) (hb : b ∈ to_bytes_be x) : b < 256 := by
  unfold to_bytes_be at hb
  split at hb
  · simp at hb; omega
  · exact mem_toBytesLEAux_lt x x b (List.mem_reverse.mp hb)

lemma ofDigits_to_bytes_be (x : Nat) :
    Nat.ofDigits 256 (to_bytes_be x).reverse = x := by
  unfold to_bytes_be
  split
  · subst ‹x = 0›
    simp [Nat.ofDigits]
  · rw [List.reverse_reverse, toBytesLEAux_eq_digits x x le_rfl, Nat.ofDigits_digits]

lemma b64DecodeChar_b64Char (i : Nat) (h : i < 64) :
    b64DecodeChar (b64Char i) = i := by
  have hall : ∀ j : Fin 64, b64DecodeChar (b64Char j.val) = j.val := by decide
  exact hall ⟨i, h⟩

lemma b64_decode_encode : ∀ bytes : List Nat, (∀ b ∈ bytes, b < 256) →
    b64urlNoPadDecode (b64urlNoPadEncode bytes) = bytes
  | [], _ => rfl
  | [b1], h => by
      have hb1 : b1 < 256 := h b1 (by simp)
      show b64urlNoPadDecode [b64Char (b1 / 4), b64Char (b1 % 4 * 16)] = [b1]
      rw [show b64urlNoPadDecode [b64Char (b1 / 4), b64Char (b1 % 4 * 16)] =
          [b64DecodeChar (b64Char (b1 / 4)) * 4 +
           b64DecodeChar (b64Char (b1 % 4 * 16)) / 16] from rfl]
      rw [b64DecodeChar_b64Char _ (by omega), b64DecodeChar_b64Char _ (by omega)]
      congr 1
      omega
  | [b1, b2], h => by
      have hb1 : b1 < 256 := h b1 (by simp)
      have hb2 : b2 < 256 := h b2 (by simp)
      show b64urlNoPadDecode
          [b64Char (b1 / 4), b64Char (b1 % 4 * 16 + b2 / 16), b64Char (b2 % 16 * 4)] =
          [b1, b2]
      rw [show b64urlNoPadDecode
          [b64Char (b1 / 4), b64Char (b1 % 4 * 16 + b2 / 16), b64Char (b2 % 16 * 4)] =
          [b64DecodeChar (b64Char (b1 / 4)) * 4 +
           b64DecodeChar (b64Char (b1 % 4 * 16 + b2 / 16)) / 16,
           b64DecodeChar (b64Char (b1 % 4 * 16 + b2 / 16)) % 16 * 16 +
           b64DecodeChar (b64Char (b2 % 16 * 4)) / 4] from rfl]
      rw [b64DecodeChar_b64Char _ (by omega), b64DecodeChar_b64Char _ (by omega),
          b64DecodeChar_b64Char _ (by omega)]
      congr 1
      · omega
      · congr 1
        omega
  | b1 :: b2 :: b3 :: rest, h => by
      have hb1 : b1 < 256 := h b1 (by simp)
      have hb2 : b2 < 256 := h b2 (by simp)
      have hb3 : b3 < 256 := h b3 (by simp)
      have ih := b64_decode_encode rest (fun b hb => h b (by simp [hb]))
      show b64urlNoPadDecode
          (b64Char (b1 / 4) :: b64Char (b1 % 4 * 16 + b2 / 16) ::
           b64Char (b2 % 16 * 4 + b3 / 64) :: b64Char (b3 % 64) ::
           b64urlNoPadEncode rest) = b1 :: b2 :: b3 :: rest
      rw [show b64urlNoPadDecode
          (b64Char (b1 / 4) :: b64Char (b1 % 4 * 16 + b2 / 16) ::
           b64Char (b2 % 16 * 4 + b3 / 64) :: b64Char (b3 % 64) ::
           b64urlNoPadEncode rest) =
          (b64DecodeChar (b64Char (b1 / 4)) * 4 +
           b64DecodeChar (b64Char (b1 % 4 * 16 + b2 / 16)) / 16) ::
          (b64DecodeChar (b64Char (b1 % 4 * 16 + b2 / 16)) % 16 * 16 +
           b64DecodeChar (b64Char (b2 % 16 * 4 + b3 / 64)) / 4) ::
          (b64DecodeChar (b64Char (b2 % 16 * 4 + b3 / 64)) % 4 * 64 +
           b64DecodeChar (b64Char (b3 % 64))) ::
          b64urlNoPadDecode (b64urlNoPadEncode rest) from rfl]
      rw [b64DecodeChar_b64Char _ (by omega), b64DecodeChar_b64Char _ (by omega),
          b64DecodeChar_b64Char _ (by omega), b64DecodeChar_b64Char _ (by omega), ih]
      congr 1
      · omega
      · congr 1
        · omega
        · congr 1
          omega

/-- C5: Fixed access-token lifetime — for every configured
`jwt_expiration_hours` value, `gen_access_token` issues a token with
`iat = now`, `exp = iat + 15 minutes` (900 seconds), independent of the
configured setting, with header algorithm RS256 and the fixed kid. -/
theorem c5_access_lifetime (k : RsaKeyParams) (pub : Pem) (hrs1 hrs2 : Nat)
    (u : Uuid) (email : String) (S : List Scope) (t : Nat) :
    (AuthService.new (Pem.rsaPrivate k) hrs1 pub).gen_access_token u email S t =
      (AuthService.new (Pem.rsaPrivate k) hrs2 pub).gen_access_token u email S t ∧
    ∃ tok,
      (AuthService.new (Pem.rsaPrivate k) hrs1 pub).gen_access_token u email S t =
        Except.ok tok ∧
      tok.payload.iat = some t ∧
      tok.payload.exp = some (t + 15 * 60) ∧
      tok.header.alg = Alg.RS256 ∧
      tok.header.kid = some ("exchange_api_key_1") :=
  ⟨rfl, _, rfl, rfl, rfl, rfl, rfl⟩

/-- C6: Refresh-token postcondition — every token from
`gen_refresh_token` has kind Refresh, `exp - iat` exactly 30 days
(2592000 seconds), carries no scope list, and carries the fresh `jti`
draw; two issuance calls whose random draws differ yield distinct
`jti` values. -/
theorem c6_refresh_token_postcondition (k : RsaKeyParams) (pub : Pem) (hrs : Nat)
    (u u2 : Uuid) (email email2 : String) (t t2 : Nat) (jti jti2 : Uuid)
    (hdraw : jti ≠ jti2) :
    ∃ tok tok2,
      (AuthService.new (Pem.rsaPrivate k) hrs pub).gen_refresh_token u email t jti =
        Except.ok tok ∧
      (AuthService.new (Pem.rsaPrivate k) hrs pub).gen_refresh_token u2 email2 t2 jti2 =
        Except.ok tok2 ∧
      tok.payload.token_type = some TokenType.Refresh ∧
      tok.payload.exp = some (t + 30 * 24 * 60 * 60) ∧
      tok.payload.iat = some t ∧
      tok.payload.scope = none ∧
      tok.payload.jti = some jti.toStr ∧
      tok.payload.jti ≠ tok2.payload.jti := by
  refine ⟨_, _, rfl, rfl, rfl, rfl, rfl, rfl, rfl, ?_⟩
  intro h
  apply hdraw
  cases jti
  cases jti2
  simpa [joseEncode, Uuid.toStr] using h

/-- C6 witness: two concrete refresh tokens for the same subject at
seconds 1000 and 2000 with different draws. -/
theorem c6_witness :
    ∃ tok tok2,
      (AuthService.new (Pem.rsaPrivate kA) 24 (Pem.rsaPublic kA)).gen_refresh_token
        uA ("a@b.com") 1000 (Uuid.mk ("j1")) = Except.ok tok ∧
      (AuthService.new (Pem.rsaPrivate kA) 24 (Pem.rsaPublic kA)).gen_refresh_token
        uA ("a@b.com") 2000 (Uuid.mk ("j2")) = Except.ok tok2 ∧
      tok.payload.token_type = some TokenType.Refresh ∧
      tok.payload.exp = some (1000 + 30 * 24 * 60 * 60) ∧
      tok.payload.iat = some 1000 ∧
      tok.payload.scope = none ∧
      tok.payload.jti = some (Uuid.mk ("j1")).toStr ∧
      tok.payload.jti ≠ tok2.payload.jti :=
  c6_refresh_token_postcondition kA (Pem.rsaPublic kA) 24 uA uA
    ("a@b.com") ("a@b.com") 1000 2000 (Uuid.mk ("j1")) (Uuid.mk ("j2")) (by decide)

/-- C7: Scope derivation — `determine_user_scopes` returns exactly
[Viewer, Manager, Admin] for admin, [Viewer, Manager] for manager, and
[Viewer] for viewer and every unrecognized role, in that order. -/
theorem c7_scope_table_exact :
    determine_user_scopes ("admin") = [Scope.Viewer, Scope.Manager, Scope.Admin] ∧
    determine_user_scopes ("manager") = [Scope.Viewer, Scope.Manager] ∧
    determine_user_scopes ("viewer") = [Scope.Viewer] ∧
    ∀ role : String, role ≠ ("admin") → role ≠ ("manager") →
      determine_user_scopes role = [Scope.Viewer] := by
  refine ⟨by decide, by decide, by decide, ?_⟩
  intro role h1 h2
  simp [determine_user_scopes, h1, h2]

/-- C7 witness: an unrecognized role falls back to [Viewer]. -/
theorem c7_witness : determine_user_scopes ("superuser") = [Scope.Viewer] :=
  c7_scope_table_exact.2.2.2 ("superuser") (by decide) (by decide)

/-- C10: For every role string the derived scope list is non-empty and
contains Viewer, so every access token minted through the login flow
carries at least the Viewer capability in its scope claim. -/
theorem c10_viewer_always_granted (role : String) :
    determine_user_scopes role ≠ [] ∧
    Scope.Viewer ∈ determine_user_scopes role ∧
    ∀ (k : RsaKeyParams) (pub : Pem) (hrs : Nat) (u : Uuid) (email : String) (t : Nat),
      ∃ tok,
        (AuthService.new (Pem.rsaPrivate k) hrs pub).gen_access_token u email
          (determine_user_scopes role) t = Except.ok tok ∧
        tok.payload.scope = some (determine_user_scopes role) := by
  refine ⟨?_, ?_, fun k pub hrs u email t => ⟨_, rfl, rfl⟩⟩
  · unfold determine_user_scopes
    split_ifs <;> simp
  · unfold determine_user_scopes
    split_ifs <;> simp

/-- C1: Round-trip — an access token issued by `gen_access_token` with
scopes S for subject U, when passed to `verify_access_token` before its
expiry and under the same key pair, verifies successfully and yields
claims with subject U's string form, scope S, and token_type Access. -/
theorem c1_access_token_roundtrip (k : RsaKeyParams) (hrs : Nat) (u : Uuid)
    (email : String) (S : List Scope) (t tv : Nat) (tok : Token)
    (hgen : (AuthService.new (Pem.rsaPrivate k) hrs (Pem.rsaPublic k)).gen_access_token
      u email S t = Except.ok tok)
    (hfresh : tv ≤ t + 15 * 60) :
    ∃ c,
      (AuthService.new (Pem.rsaPrivate k) hrs (Pem.rsaPublic k)).verify_access_token
        tok tv = Except.ok c ∧
      c.sub = u.toStr ∧ c.scope = S ∧ c.token_type = TokenType.Access := by
  simp only [AuthService.new, AuthService.gen_access_token, EncodingKey.from_rsa_pem,
    joseEncode, Except.ok.injEq] at hgen
  subst hgen
  refine ⟨{ sub := u.toStr, email := email, exp := t + 15 * 60, iat := t,
            iss := ("exchange_api"), token_type := TokenType.Access, scope := S },
          ?_, rfl, rfl, rfl⟩
  simp only [AuthService.new, AuthService.verify_access_token,
    DecodingKey.from_rsa_pem, decodeAccess, verify_signature,
    deserializeAccessClaims, validateTemporalClaims, Validation.default,
    List.mem_cons, List.not_mem_nil, or_false, not_true, and_self,
    if_true, if_false, ite_true, ite_false, Uuid.toStr]
  rw [if_neg (by rintro ⟨-, h⟩; omega)]
  simp

/-- C1 witness: the concrete token `atokA` issued at second 1000 for `uA`
with scope [Viewer] verifies at second 1500. -/
theorem c1_witness :
    ∃ c,
      (AuthService.new (Pem.rsaPrivate kA) 24 (Pem.rsaPublic kA)).verify_access_token
        atokA 1500 = Except.ok c ∧
      c.sub = uA.toStr ∧ c.scope = [Scope.Viewer] ∧ c.token_type = TokenType.Access :=
  c1_access_token_roundtrip kA 24 uA ("a@b.com") [Scope.Viewer] 1000 1500 atokA
    (by decide) (by decide)

/-- C2 counterexample: the genuine, correctly signed and unexpired refresh
token `rtokA` presented to `verify_access_token` is rejected with a serde
`Json` deserialization error (its payload has no `scope` field), not with
`InvalidToken` as the claim states. -/
theorem c2_counterexample :
    svcA.gen_refresh_token uA ("a@b.com") 1000 (Uuid.mk ("j1")) = Except.ok rtokA ∧
    rtokA.payload.exp = some 2593000 ∧
    svcA.verify_access_token rtokA 1000 =
      Except.error (ErrorKind.Json ("missing field")) ∧
    ErrorKind.Json ("missing field") ≠ ErrorKind.InvalidToken := by
  decide

/-- C2 amended: a genuine refresh token presented to
`verify_access_token`, and a genuine access token presented to
`verify_refresh_token`, are both rejected — but with a serde `Json`
deserialization error (the payload lacks the other kind's required
`scope`/`jti` field), not with `InvalidToken`; the `InvalidToken` branch
fires only for payloads that deserialize as the target claims type while
carrying the wrong `token_type` tag. -/
theorem c2_wrong_kind_rejected (k : RsaKeyParams) (hrs : Nat) (u : Uuid)
    (email : String) (S : List Scope) (t tv : Nat) (jti : Uuid)
    (atok rtok : Token)
    (hr : (AuthService.new (Pem.rsaPrivate k) hrs (Pem.rsaPublic k)).gen_refresh_token
      u email t jti = Except.ok rtok)
    (ha : (AuthService.new (Pem.rsaPrivate k) hrs (Pem.rsaPublic k)).gen_access_token
      u email S t = Except.ok atok) :
    (AuthService.new (Pem.rsaPrivate k) hrs (Pem.rsaPublic k)).verify_access_token
      rtok tv = Except.error (ErrorKind.Json ("missing field")) ∧
    (AuthService.new (Pem.rsaPrivate k) hrs (Pem.rsaPublic k)).verify_refresh_token
      atok tv = Except.error (ErrorKind.Json ("missing field")) := by
  simp only [AuthService.new, AuthService.gen_refresh_token, AuthService.gen_access_token,
    EncodingKey.from_rsa_pem, joseEncode, Except.ok.injEq] at hr ha
  subst hr
  subst ha
  constructor
  · simp [AuthService.new, AuthService.verify_access_token, DecodingKey.from_rsa_pem,
      decodeAccess, verify_signature, deserializeAccessClaims, joseEncode]
  · simp [AuthService.new, AuthService.verify_refresh_token, DecodingKey.from_rsa_pem,
      decodeRefresh, verify_signature, deserializeRefreshClaims, joseEncode]

/-- C2 witness for the amended statement: concrete cross-kind rejections
for the `kA` service at second 1000. -/
theorem c2_witness :
    (AuthService.new (Pem.rsaPrivate kA) 24 (Pem.rsaPublic kA)).verify_access_token
      rtokA 1000 = Except.error (ErrorKind.Json ("missing field")) ∧
    (AuthService.new (Pem.rsaPrivate kA) 24 (Pem.rsaPublic kA)).verify_refresh_token
      atokA 1000 = Except.error (ErrorKind.Json ("missing field")) :=
  c2_wrong_kind_rejected kA 24 uA ("a@b.com") [Scope.Viewer] 1000 1000
    (Uuid.mk ("j1")) atokA rtokA (by decide) (by decide)

/-- C3: Algorithm restriction — any token whose header declares an
algorithm other than RS256 is rejected by both `verify_access_token` and
`verify_refresh_token`, whatever its payload or signature (and whatever
key material the service holds). -/
theorem c3_alg_restriction (s : AuthService) (tok : Token) (now : Nat)
    (halg : tok.header.alg ≠ Alg.RS256) :
    (∃ e, s.verify_access_token tok now = Except.error e) ∧
    (∃ e, s.verify_refresh_token tok now = Except.error e) := by
  have hmem : tok.header.alg ∉ [Alg.RS256] := by simp [halg]
  constructor
  · cases hpk : s.public_key with
    | rsaPrivate k =>
        exact ⟨ErrorKind.InvalidKeyFormat, by
          simp [AuthService.verify_access_token, DecodingKey.from_rsa_pem, hpk]⟩
    | rsaPublic k =>
        refine ⟨ErrorKind.InvalidAlgorithm, ?_⟩
        simp [AuthService.verify_access_token, DecodingKey.from_rsa_pem, hpk,
          decodeAccess, verify_signature, Validation.default, hmem, halg]
    | malformed m =>
        exact ⟨ErrorKind.InvalidKeyFormat, by
          simp [AuthService.verify_access_token, DecodingKey.from_rsa_pem, hpk]⟩
  · cases hpk : s.public_key with
    | rsaPrivate k =>
        exact ⟨ErrorKind.InvalidKeyFormat, by
          simp [AuthService.verify_refresh_token, DecodingKey.from_rsa_pem, hpk]⟩
    | rsaPublic k =>
        refine ⟨ErrorKind.InvalidAlgorithm, ?_⟩
        simp [AuthService.verify_refresh_token, DecodingKey.from_rsa_pem, hpk,
          decodeRefresh, verify_signature, Validation.default, hmem, halg]
    | malformed m =>
        exact ⟨ErrorKind.InvalidKeyFormat, by
          simp [AuthService.verify_refresh_token, DecodingKey.from_rsa_pem, hpk]⟩

/-- C3 witness: a concrete HS256-headered token is rejected by both
verifiers of the `kA` service. -/
theorem c3_witness :
    (∃ e, svcA.verify_access_token htokA 1000 = Except.error e) ∧
    (∃ e, svcA.verify_refresh_token htokA 1000 = Except.error e) :=
  c3_alg_restriction svcA htokA 1000 (by decide)

/-- C4 counterexample: the concrete access token `atokA` has `exp = 1900`,
which is in the past at verification second 1901, yet `verify_access_token`
accepts it (the library's default `Validation` carries a 60-second
leeway), contradicting the claim that any past-`exp` token is rejected. -/
theorem c4_counterexample :
    svcA.gen_access_token uA ("a@b.com") [Scope.Viewer] 1000 = Except.ok atokA ∧
    atokA.payload.exp = some 1900 ∧
    1900 < 1901 ∧
    svcA.verify_access_token atokA 1901 =
      Except.ok { sub := uA.toStr, email := ("a@b.com"), exp := 1900, iat := 1000,
                  iss := ("exchange_api"), token_type := TokenType.Access,
                  scope := [Scope.Viewer] } := by
  decide

/-- C4 amended: a token whose `exp` lies more than 60 seconds (the
default leeway of `Validation::default()`) in the past at verification
time is rejected with `ExpiredSignature` by `verify_access_token` and
`verify_refresh_token`, even under a valid signature and well-formed
claims; within the 60-second leeway an already-expired token is still
accepted (see the counterexample). -/
theorem c4_expiry_leeway (s : AuthService) (k : RsaKeyParams) (tok : Token)
    (now ex : Nat) (hpk : s.public_key = Pem.rsaPublic k)
    (halg : tok.header.alg = Alg.RS256)
    (hsig : tok.sig =
      { key := k, signedHeader := tok.header, signedPayload := tok.payload })
    (hexp : tok.payload.exp = some ex) (hpast : ex + 60 < now) :
    (∀ c, deserializeAccessClaims tok.payload = Except.ok c →
      s.verify_access_token tok now = Except.error ErrorKind.ExpiredSignature) ∧
    (∀ c, deserializeRefreshClaims tok.payload = Except.ok c →
      s.verify_refresh_token tok now = Except.error ErrorKind.ExpiredSignature) := by
  have hval : validateTemporalClaims tok.payload
      { algorithms := [Alg.RS256], leeway := 60, validate_exp := true } now =
      Except.error ErrorKind.ExpiredSignature := by
    simp only [validateTemporalClaims, hexp]
    split
    · rfl
    · rename_i hcond
      exact absurd ⟨by trivial, show ex < now - 60 by omega⟩ hcond
  constructor
  · intro c hc
    simp [AuthService.verify_access_token, DecodingKey.from_rsa_pem, hpk,
      decodeAccess, verify_signature, Validation.default, halg, hsig, hc, hval]
  · intro c hc
    simp [AuthService.verify_refresh_token, DecodingKey.from_rsa_pem, hpk,
      decodeRefresh, verify_signature, Validation.default, halg, hsig, hc, hval]

/-- C4 witness for the amended statement: `atokA` (exp 1900) is rejected
as expired at second 1961. -/
theorem c4_witness :
    svcA.verify_access_token atokA 1961 = Except.error ErrorKind.ExpiredSignature :=
  (c4_expiry_leeway svcA kA atokA 1961 1900 rfl rfl rfl rfl (by decide)).1
    { sub := uA.toStr, email := ("a@b.com"), exp := 1900, iat := 1000,
      iss := ("exchange_api"), token_type := TokenType.Access,
      scope := [Scope.Viewer] }
    (by decide)

/-- C8: JWKS rendering — `generate_jwks` is a pure function of the stored
public key; for a parsing public key it returns exactly one key record
with kty RSA, use sig, alg RS256, the fixed kid, and `n`/`e` the
base64url-unpadded encodings of the big-endian byte strings of the
modulus and public exponent (witnessed by the decodings recovering the
numbers). -/
theorem c8_jwks_rendering (s : AuthService) (k : RsaKeyParams)
    (h : s.public_key = Pem.rsaPublic k) :
    s.generate_jwks = Except.ok
      { keys := [{ alg := ("RS256"), e := urlSafeNoPad (to_bytes_be k.e),
                   kid := ("exchange_api_key_1"), kty := ("RSA"),
                   n := urlSafeNoPad (to_bytes_be k.n), jwkUse := ("sig") }] } ∧
    Nat.ofDigits 256 (b64urlNoPadDecode (b64urlNoPadEncode (to_bytes_be k.n))).reverse
      = k.n ∧
    Nat.ofDigits 256 (b64urlNoPadDecode (b64urlNoPadEncode (to_bytes_be k.e))).reverse
      = k.e := by
  refine ⟨?_, ?_, ?_⟩
  · simp [AuthService.generate_jwks, h]
  · rw [b64_decode_encode _ (fun b hb => mem_to_bytes_be_lt _ _ hb),
      ofDigits_to_bytes_be]
  · rw [b64_decode_encode _ (fun b hb => mem_to_bytes_be_lt _ _ hb),
      ofDigits_to_bytes_be]

/-- C8 witness: the concrete rendering for the `kA` service. -/
theorem c8_witness :
    svcA.generate_jwks = Except.ok
      { keys := [{ alg := ("RS256"), e := urlSafeNoPad (to_bytes_be kA.e),
                   kid := ("exchange_api_key_1"), kty := ("RSA"),
                   n := urlSafeNoPad (to_bytes_be kA.n), jwkUse := ("sig") }] } ∧
    Nat.ofDigits 256 (b64urlNoPadDecode (b64urlNoPadEncode (to_bytes_be kA.n))).reverse
      = kA.n ∧
    Nat.ofDigits 256 (b64urlNoPadDecode (b64urlNoPadEncode (to_bytes_be kA.e))).reverse
      = kA.e :=
  c8_jwks_rendering svcA kA rfl

/-- C9 counterexample: with an externally supplied private key (and no
supplied public key), `from_config` still performs a durable-storage
write — `create_public_keys_json` writes `public_keys.json` — so the
claim that no write happens on the externally-supplied path is false. -/
theorem c9_counterexample :
    AuthService.from_config
      { private_key := some (Pem.rsaPrivate kA), public_key := none,
        jwt_expiration_hours := 24 } kA 0 =
      Except.ok (AuthService.new (Pem.rsaPrivate kA) 24 (Pem.rsaPublic kA),
        [{ path := ("public_keys.json"),
           content := FileContent.publicKeysJson jwksA }]) ∧
    ([{ path := ("public_keys.json"), content := FileContent.publicKeysJson jwksA }] :
      List FsWrite) ≠ [] := by
  decide

/-- C9 amended: on the generation path (no supplied private key)
`from_config` writes exactly `keys.json` (the private key material and
metadata) and `public_keys.json` (the JWKS rendering); on the
externally-supplied-key path it writes exactly `public_keys.json`, and in
particular never persists private key material there — the claim's "no
write on the external path" part fails only for the JWKS rendering. -/
theorem c9_bootstrap_writes (config : Args) (draw : RsaKeyParams) (now : Nat)
    (svc : AuthService) (writes : List FsWrite)
    (h : AuthService.from_config config draw now = Except.ok (svc, writes)) :
    (config.private_key = none →
      writes =
        [{ path := ("keys.json"),
           content := FileContent.keysJson (Pem.rsaPrivate draw) (Pem.rsaPublic draw)
             now },
         { path := ("public_keys.json"),
           content := FileContent.publicKeysJson
             { keys := [{ alg := ("RS256"), e := urlSafeNoPad (to_bytes_be draw.e),
                          kid := ("exchange_api_key_1"), kty := ("RSA"),
                          n := urlSafeNoPad (to_bytes_be draw.n),
                          jwkUse := ("sig") }] } }]) ∧
    (∀ pk, config.private_key = some pk →
      List.map FsWrite.path writes = [("public_keys.json")] ∧
      ∀ w ∈ writes, ∀ prv pb gen, w.content ≠ FileContent.keysJson prv pb gen) := by
  cases hc : config.private_key with
  | none =>
      refine ⟨fun _ => ?_, fun pk hpk => by simp at hpk⟩
      simp [AuthService.from_config, hc, generate_key_pair] at h
      exact h.2.symm
  | some pk0 =>
      refine ⟨fun hn => by simp at hn, ?_⟩
      intro pk hpk
      injection hpk with he
      subst he
      cases hp : config.public_key with
      | some pb =>
          cases pb with
          | rsaPrivate k2 =>
              simp [AuthService.from_config, hc, hp, create_public_keys_json] at h
          | rsaPublic k2 =>
              simp [AuthService.from_config, hc, hp, create_public_keys_json] at h
              rcases h with ⟨h1, h2⟩
              subst h2
              refine ⟨rfl, ?_⟩
              intro w hw prv pb2 gen
              simp at hw
              subst hw
              simp
          | malformed m =>
              simp [AuthService.from_config, hc, hp, create_public_keys_json] at h
      | none =>
          cases pk0 with
          | rsaPrivate k2 =>
              simp [AuthService.from_config, hc, hp, extract_public_key_from_private,
                create_public_keys_json] at h
              rcases h with ⟨h1, h2⟩
              subst h2
              refine ⟨rfl, ?_⟩
              intro w hw prv pb2 gen
              simp at hw
              subst hw
              simp
          | rsaPublic k2 =>
              simp [AuthService.from_config, hc, hp, extract_public_key_from_private] at h
          | malformed m =>
              simp [AuthService.from_config, hc, hp, extract_public_key_from_private] at h

/-- C9 witness for the amended statement: the generation-path writes for
the `kA` draw at second 0 are exactly the two bootstrap files. -/
theorem c9_witness :
    (({ private_key := none, public_key := none, jwt_expiration_hours := 24 } :
        Args).private_key = none →
      bootWritesA =
        [{ path := ("keys.json"),
           content := FileContent.keysJson (Pem.rsaPrivate kA) (Pem.rsaPublic kA) 0 },
         { path := ("public_keys.json"),
           content := FileContent.publicKeysJson
             { keys := [{ alg := ("RS256"), e := urlSafeNoPad (to_bytes_be kA.e),
                          kid := ("exchange_api_key_1"), kty := ("RSA"),
                          n := urlSafeNoPad (to_bytes_be kA.n),
                          jwkUse := ("sig") }] } }]) ∧
    (∀ pk, ({ private_key := none, public_key := none, jwt_expiration_hours := 24 } :
        Args).private_key = some pk →
      List.map FsWrite.path bootWritesA = [("public_keys.json")] ∧
      ∀ w ∈ bootWritesA, ∀ prv pb gen, w.content ≠ FileContent.keysJson prv pb gen) :=
  c9_bootstrap_writes
    { private_key := none, public_key := none, jwt_expiration_hours := 24 }
    kA 0 (AuthService.new (Pem.rsaPrivate kA) 24 (Pem.rsaPublic kA)) bootWritesA
    (by decide)

/-- C10 witness: the unrecognized role string "guest" yields a non-empty
scope list containing Viewer, embedded in the minted token. -/
theorem c10_witness :
    determine_user_scopes ("guest") ≠ [] ∧
    Scope.Viewer ∈ determine_user_scopes ("guest") ∧
    ∀ (k : RsaKeyParams) (pub : Pem) (hrs : Nat) (u : Uuid) (email : String) (t : Nat),
      ∃ tok,
        (AuthService.new (Pem.rsaPrivate k) hrs pub).gen_access_token u email
          (determine_user_scopes ("guest")) t = Except.ok tok ∧
        tok.payload.scope = some (determine_user_scopes ("guest")) :=
  c10_viewer_always_granted ("guest")
